import Mathlib

/-!
Shallow embedding of the Shadeform Terraform provider's instance-creation
readiness loop and the surrounding CRUD orchestration
(internal/resources/instance: `pollInstanceStatus`, `InstanceResource.Create`,
`InstanceResource.Update`) together with the error-value discipline of the
HTTP client (internal/provider/provider_shadeform).

Modelling conventions:
* Time is discrete, measured in seconds (`Nat`).  `time.NewTicker(interval)`
  fires at absolute times `interval, 2*interval, ...`; the context's `Done`
  channel fires at the context's done time (deadline, or an earlier external
  cancellation).  The `select` in the loop body is modelled deterministically:
  the ticker branch is taken whenever the next tick is no later than the done
  time, matching the operational reading of the loop.
* Go `error` values returned by this code are either the two context
  sentinels (`context.DeadlineExceeded`, `context.Canceled`) or plain
  message-carrying errors produced by `fmt.Errorf` (the HTTP client wraps
  every failure in `fmt.Errorf`); `GoError` mirrors exactly these shapes.
* JSON objects decoded into `map[string]interface{}` are association lists
  `Info`; Go's comma-ok type assertion `info["status"].(string)` with
  discarded `ok` is `lookupStr` (zero value `""` on a missing or
  non-string field).
* The poll loop additionally records ghost observables: the number of
  status-fetch calls performed, the time at which it returned, and the spec's
  `PollOutcome` classification of the exit branch taken (the source's exit
  points are syntactically distinct, so the classification is well defined).
-/

namespace Shadeform

/-- A decoded JSON value as stored in Go's `map[string]interface{}`. -/
inductive GoValue where
  | str (s : String)
  | boolean (b : Bool)
  | num (n : Int)
  | null
deriving DecidableEq, Repr

/-- A decoded JSON object (`map[string]interface{}`). -/
abbrev Info := List (String × GoValue)

/-- Go's `s, _ := info[key].(string)`: the string value of the field, or the
string zero value `""` when the field is absent or not a string. -/
def lookupStr (info : Info) (key : String) : String :=
  match info.lookup key with
  | some (GoValue.str s) => s
  | _ => ""

/-- The Go `error` values this code can return: the two `context` sentinel
errors, and message-only errors built by `fmt.Errorf` / `errors.New`. -/
inductive GoError where
  | deadlineExceeded
  | canceled
  | errorString (msg : String)
deriving DecidableEq, Repr

/-- The `Error()` string of the error value (`context.DeadlineExceeded.Error()`
is `"context deadline exceeded"`, `context.Canceled.Error()` is
`"context canceled"`). -/
def GoError.message : GoError → String
  | GoError.deadlineExceeded => "context deadline exceeded"
  | GoError.canceled => "context canceled"
  | GoError.errorString s => s

/-- Whether two Go error values are of the same variant (the same sentinel,
or both plain message errors), irrespective of message text. -/
def GoError.sameVariant : GoError → GoError → Bool
  | GoError.deadlineExceeded, GoError.deadlineExceeded => true
  | GoError.canceled, GoError.canceled => true
  | GoError.errorString _, GoError.errorString _ => true
  | _, _ => false

/-- The cancellation context passed to `pollInstanceStatus`: built by
`context.WithTimeout`, so it carries an absolute deadline, and optionally an
earlier external cancellation signal (user interrupt) at absolute time
`cancel`. -/
structure Ctx where
  deadline : Nat
  cancel : Option Nat
deriving DecidableEq, Repr

/-- The absolute time at which `ctx.Done()` fires. -/
def Ctx.doneTime (ctx : Ctx) : Nat :=
  match ctx.cancel with
  | none => ctx.deadline
  | some c => min c ctx.deadline

/-- `ctx.Err()` after `Done` has fired: `context.Canceled` when the external
cancellation came strictly before the deadline, `context.DeadlineExceeded`
otherwise. -/
def Ctx.err (ctx : Ctx) : GoError :=
  match ctx.cancel with
  | none => GoError.deadlineExceeded
  | some c => if c < ctx.deadline then GoError.canceled else GoError.deadlineExceeded

/-- The spec's `PollOutcome` sum type (§3): which exit branch a poll session
took. -/
inductive PollOutcome where
  | ready
  | failed
  | timedOut
  | cancelled
  | fetchError
deriving DecidableEq, Repr

/-- Result of one poll session: `err` is the Go `error` value returned by
`pollInstanceStatus` (`none` models `nil`); `outcome` is the `PollOutcome`
classification of the exit branch; `fetches` counts `GetInstance` calls made;
`time` is the absolute time at which the loop returned. -/
structure PollResult where
  err : Option GoError
  outcome : PollOutcome
  fetches : Nat
  time : Nat
deriving DecidableEq, Repr

/-- The exit record of the `<-ctx.Done()` branch (`return ctx.Err()`), taken
after `n` fetches at the context's done time. -/
def doneExit (ctx : Ctx) (n : Nat) : PollResult :=
  ⟨some ctx.err,
   if ctx.err = GoError.canceled then PollOutcome.cancelled else PollOutcome.timedOut,
   n, ctx.doneTime⟩

/-- The body of `pollInstanceStatus`'s `for { select { ... } }` loop.
`fetch m` is the result of the `(m+1)`-st `c.GetInstance(id)` call; `n` is the
number of fetches already performed, so the next ticker fire is at absolute
time `(n+1)*interval`.  The ticker branch is taken when the next tick is no
later than the context's done time, otherwise the `Done` branch returns
`ctx.Err()`.  `fuel` bounds the recursion; the top-level entry point supplies
enough fuel that the fuel-exhaustion fallback (which repeats the `Done`
branch) is never reached for a positive interval. -/
def pollLoop (ctx : Ctx) (fetch : Nat → Except GoError Info) (id : String)
    (interval : Nat) : Nat → Nat → PollResult
  | 0, n => doneExit ctx n
  | fuel + 1, n =>
    if ctx.doneTime < (n + 1) * interval then
      doneExit ctx n
    else
      match fetch n with
      | Except.error e => ⟨some e, PollOutcome.fetchError, n + 1, (n + 1) * interval⟩
      | Except.ok info =>
        if lookupStr info "status" = "active" then
          ⟨none, PollOutcome.ready, n + 1, (n + 1) * interval⟩
        else if lookupStr info "status" = "error" then
          ⟨some (GoError.errorString ("instance " ++ id ++ " is in error state")),
           PollOutcome.failed, n + 1, (n + 1) * interval⟩
        else
          pollLoop ctx fetch id interval fuel (n + 1)

set_option linter.unusedVariables false in
/-- `pollInstanceStatus(ctx, c, name, id, interval)`: runs the poll loop from
zero fetches.  The `name` argument is only used for debug logging in the
source and does not influence the result. -/
def pollInstanceStatus (ctx : Ctx) (fetch : Nat → Except GoError Info)
    (name id : String) (interval : Nat) : PollResult :=
  pollLoop ctx fetch id interval (ctx.doneTime + 1) 0

/-- A fetch result that the loop treats as "still provisioning": a successful
snapshot whose status string is neither terminal sentinel. -/
def fetchNonterminal (r : Except GoError Info) : Prop :=
  ∃ info, r = Except.ok info ∧
    lookupStr info "status" ≠ "active" ∧ lookupStr info "status" ≠ "error"

/-- The representation class of the returned Go error value: `nil`, the
`DeadlineExceeded` sentinel, the `Canceled` sentinel, or a message-only
error. -/
def errVariant : Option GoError → Nat
  | none => 0
  | some GoError.deadlineExceeded => 1
  | some GoError.canceled => 2
  | some (GoError.errorString _) => 3

/-- The representation class that each exit branch of `pollInstanceStatus`
produces for its return value: `Ready` returns `nil`, `TimedOut` and
`Cancelled` return the respective context sentinel, while `Failed` and
`FetchError` both return a message-only error. -/
def outcomeVariant : PollOutcome → Nat
  | PollOutcome.ready => 0
  | PollOutcome.timedOut => 1
  | PollOutcome.cancelled => 2
  | PollOutcome.failed => 3
  | PollOutcome.fetchError => 3

/-- A status-fetch capability backed by the repository's HTTP client: every
error it returns was built by `fmt.Errorf`, hence is a message-only error,
never one of the context sentinels. -/
def clientErrorsOnly (fetch : Nat → Except GoError Info) : Prop :=
  ∀ m e, fetch m = Except.error e → ∃ s, e = GoError.errorString s

/-- Two fetch results the loop body cannot tell apart: identical errors, or
successful snapshots with the same status string. -/
def FetchEquiv (r1 r2 : Except GoError Info) : Prop :=
  (∃ e, r1 = Except.error e ∧ r2 = Except.error e) ∨
  (∃ i1 i2, r1 = Except.ok i1 ∧ r2 = Except.ok i2 ∧
    lookupStr i1 "status" = lookupStr i2 "status")

/-- A `types.String` Terraform attribute value: null, unknown, or a known
string. -/
inductive TfString where
  | null
  | unknown
  | value (s : String)
deriving DecidableEq, Repr

/-- `types.String.ValueString()`: the known string, or the zero value `""`
for null or unknown. -/
def TfString.valueString : TfString → String
  | TfString.value s => s
  | _ => ""

/-- A `types.Bool` Terraform attribute value. -/
inductive TfBool where
  | null
  | unknown
  | value (b : Bool)
deriving DecidableEq, Repr

/-- A `types.Int64` Terraform attribute value. -/
inductive TfInt64 where
  | null
  | unknown
  | value (i : Int)
deriving DecidableEq, Repr

/-- A `types.List` of strings Terraform attribute value. -/
inductive TfStringList where
  | null
  | unknown
  | value (xs : List String)
deriving DecidableEq, Repr

/-- The `timeouts` block value (`timeouts.Value`): an optional user-supplied
create timeout, in seconds. -/
structure TimeoutsValue where
  create : Option Nat
deriving DecidableEq, Repr

/-- `timeouts.Value.Create(ctx, defaultTimeout)`: the user-supplied create
timeout when configured, the supplied default otherwise. -/
def TimeoutsValue.createOrDefault (t : TimeoutsValue) (d : Nat) : Nat :=
  t.create.getD d

/-- `InstanceResourceModel`: the typed Terraform state/plan for the
`shadeform_instance` resource. -/
structure InstanceResourceModel where
  id : TfString
  cloud : TfString
  region : TfString
  shadeInstanceType : TfString
  shadeCloud : TfBool
  name : TfString
  os : TfString
  sshKeyId : TfString
  templateId : TfString
  volumeIds : TfStringList
  cloudInstanceType : TfString
  cloudAssignedID : TfString
  ip : TfString
  sshUser : TfString
  sshPort : TfInt64
  status : TfString
  costEstimate : TfString
  hourlyPrice : TfString
  createdAt : TfString
  timeouts : TimeoutsValue
deriving DecidableEq, Repr

/-- `defaultCreateTimeout = 60 * time.Minute`, in seconds. -/
def defaultCreateTimeout : Nat := 60 * 60

/-- The arguments `Create` passes to `pollInstanceStatus`. -/
structure PollParams where
  name : String
  id : String
  interval : Nat
  deadline : Nat
deriving DecidableEq, Repr

/-- The poll parameters computed by `InstanceResource.Create` after the
create call returned `instanceID`: the name from the plan, an interval of
`15 * time.Second`, and a deadline of
`plan.Timeouts.Create(ctx, defaultCreateTimeout)`. -/
def instanceCreatePollParams (plan : InstanceResourceModel) (instanceID : String) :
    PollParams :=
  { name := plan.name.valueString
    id := instanceID
    interval := 15
    deadline := plan.timeouts.createOrDefault defaultCreateTimeout }

/-- The poll session `InstanceResource.Create` runs: `pollInstanceStatus` on a
context carrying the configured create deadline (plus any external
cancellation signal at absolute time `cancel`). -/
def instanceCreatePoll (plan : InstanceResourceModel)
    (fetch : Nat → Except GoError Info) (cancel : Option Nat)
    (instanceID : String) : PollResult :=
  pollInstanceStatus
    ⟨(instanceCreatePollParams plan instanceID).deadline, cancel⟩ fetch
    (instanceCreatePollParams plan instanceID).name
    (instanceCreatePollParams plan instanceID).id
    (instanceCreatePollParams plan instanceID).interval

/-- A call made through the provider's HTTP client. -/
inductive ApiCall where
  | getInstance (id : String)
  | deleteInstance (id : String)
deriving DecidableEq, Repr

/-- What `InstanceResource.Create` does from the poll invocation to the point
where it either returns with a diagnostic or proceeds to populate state:
`calls` are the client calls it makes after the poll session returns, and
`diagnostic` is the `AddError(summary, detail)` it raises, if any. -/
structure CreateAwaitResult where
  pollResult : PollResult
  calls : List ApiCall
  diagnostic : Option (String × String)
deriving DecidableEq, Repr

/-- Lines 241-253 of the instance resource: run the poll session; on a
non-nil error add the `"Instance not ready"` diagnostic (interpolating the
instance id and the error text) and return at once; on success continue by
fetching the full instance info. -/
def instanceCreateAwait (plan : InstanceResourceModel)
    (fetch : Nat → Except GoError Info) (cancel : Option Nat)
    (instanceID : String) : CreateAwaitResult :=
  match (instanceCreatePoll plan fetch cancel instanceID).err with
  | some e =>
    ⟨instanceCreatePoll plan fetch cancel instanceID, [],
     some ("Instance not ready",
       "timed out waiting for " ++ instanceID ++ " to become active: " ++ e.message)⟩
  | none =>
    ⟨instanceCreatePoll plan fetch cancel instanceID,
     [ApiCall.getInstance instanceID], none⟩

/-- The request body built by `InstanceResource.Update`: starts empty and
gains a `"name"` entry exactly when `plan.Name.Equal(state.Name)` is false. -/
def instanceUpdateRequestBody (plan state : InstanceResourceModel) : Info :=
  if plan.name = state.name then []
  else [("name", GoValue.str plan.name.valueString)]

/-- Test fixture: a status-fetch capability that always reports a
still-provisioning instance. -/
def pendingFetch : Nat → Except GoError Info :=
  fun _ => Except.ok [("status", GoValue.str "pending")]

/-- Test fixture: a status-fetch capability that always fails with an HTTP
client transport error. -/
def errFetch : Nat → Except GoError Info :=
  fun _ => Except.error (GoError.errorString "failed to make request: connection refused")

/-- Test fixture: a status-fetch capability that always reports the remote
terminal-failure status. -/
def errorStatusFetch : Nat → Except GoError Info :=
  fun _ => Except.ok [("status", GoValue.str "error")]

/-- Test fixture: one still-provisioning snapshot, then a transport error. -/
def fetchErrAt1 : Nat → Except GoError Info :=
  fun n =>
    if n = 0 then Except.ok [("status", GoValue.str "pending")]
    else Except.error (GoError.errorString "failed to make request: connection refused")

/-- Test fixture: the status sequence `["pending", "pending", "active"]`. -/
def pendPendActive : Nat → Except GoError Info :=
  fun n =>
    if n < 2 then Except.ok [("status", GoValue.str "pending")]
    else Except.ok [("status", GoValue.str "active")]

/-- Test fixture: the status sequence `["pending", "error"]`. -/
def pendErrorFetch : Nat → Except GoError Info :=
  fun n =>
    if n = 0 then Except.ok [("status", GoValue.str "pending")]
    else Except.ok [("status", GoValue.str "error")]

/-- Test fixture: a first snapshot whose `"status"` field is a number rather
than a string, then active snapshots. -/
def numStatusFetch : Nat → Except GoError Info :=
  fun n =>
    if n = 0 then Except.ok [("status", GoValue.num 5)]
    else Except.ok [("status", GoValue.str "active")]

/-- Test fixture: a plan with the required attributes set, optional
attributes null, and no timeouts configuration. -/
def planBase : InstanceResourceModel :=
  { id := TfString.null
    cloud := TfString.value "aws"
    region := TfString.value "us-east-1"
    shadeInstanceType := TfString.value "A100"
    shadeCloud := TfBool.value true
    name := TfString.value "tf-instance"
    os := TfString.null
    sshKeyId := TfString.null
    templateId := TfString.null
    volumeIds := TfStringList.null
    cloudInstanceType := TfString.null
    cloudAssignedID := TfString.null
    ip := TfString.null
    sshUser := TfString.null
    sshPort := TfInt64.null
    status := TfString.null
    costEstimate := TfString.null
    hourlyPrice := TfString.null
    createdAt := TfString.null
    timeouts := ⟨none⟩ }

/-- Test fixture: `planBase` with a caller-configured create timeout of 20
seconds. -/
def planShortTimeout : InstanceResourceModel :=
  { planBase with timeouts := ⟨some 20⟩ }

/-- Test fixture: `planBase` with a different planned name. -/
def planRenamed : InstanceResourceModel :=
  { planBase with name := TfString.value "tf-renamed" }

theorem pollLoop_zero (ctx : Ctx) (fetch : Nat → Except GoError Info) (id : String)
    (interval n : Nat) :
    pollLoop ctx fetch id interval 0 n = doneExit ctx n := rfl

theorem pollLoop_succ (ctx : Ctx) (fetch : Nat → Except GoError Info) (id : String)
    (interval fuel n : Nat) :
    pollLoop ctx fetch id interval (fuel + 1) n =
      if ctx.doneTime < (n + 1) * interval then
        doneExit ctx n
      else
        match fetch n with
        | Except.error e => ⟨some e, PollOutcome.fetchError, n + 1, (n + 1) * interval⟩
        | Except.ok info =>
          if lookupStr info "status" = "active" then
            ⟨none, PollOutcome.ready, n + 1, (n + 1) * interval⟩
          else if lookupStr info "status" = "error" then
            ⟨some (GoError.errorString ("instance " ++ id ++ " is in error state")),
             PollOutcome.failed, n + 1, (n + 1) * interval⟩
          else
            pollLoop ctx fetch id interval fuel (n + 1) := rfl

/-- While every fetch before index `j` (counting from `n`) is non-terminal and
the `(n+j)`-th tick still falls within the context's lifetime, the loop simply
advances: running with `f + j` fuel from `n` fetches equals running with `f`
fuel from `n + j` fetches. -/
theorem pollLoop_skip (ctx : Ctx) (fetch : Nat → Except GoError Info) (id : String)
    (interval : Nat) :
    ∀ (j f n : Nat),
      (∀ m, m < j → fetchNonterminal (fetch (n + m))) →
      (n + j) * interval ≤ ctx.doneTime →
      pollLoop ctx fetch id interval (f + j) n = pollLoop ctx fetch id interval f (n + j) := by
  intro j
  induction j with
  | zero => intro f n _ _; rfl
  | succ j ih =>
    intro f n hnt hle
    obtain ⟨info, hfi, hna, hne⟩ := hnt 0 (Nat.succ_pos j)
    have htick : ¬ ctx.doneTime < (n + 1) * interval := by
      have h1 : (n + 1) * interval ≤ (n + (j + 1)) * interval :=
        Nat.mul_le_mul_right interval (by omega)
      omega
    have hstep : f + (j + 1) = (f + j) + 1 := by omega
    rw [hstep, pollLoop_succ, if_neg htick]
    rw [show n + 0 = n from rfl] at hfi
    rw [hfi]
    simp only [if_neg hna, if_neg hne]
    have := ih f (n + 1) (fun m hm => by
      have := hnt (m + 1) (by omega)
      simpa [Nat.add_assoc, Nat.add_comm 1 m] using this)
      (by have : n + 1 + j = n + (j + 1) := by omega
          rw [this]; exact hle)
    rw [this, show n + 1 + j = n + (j + 1) from by omega]

/-- If the first `k` fetches are non-terminal and tick `k + 1` (the `(k+1)`-st
fetch, at absolute time `(k+1)*interval`) still falls within the context's
lifetime, the poll session's result is decided by the `(k+1)`-st fetch. -/
theorem poll_step_at (ctx : Ctx) (fetch : Nat → Except GoError Info)
    (name id : String) (interval k : Nat)
    (hi : 1 ≤ interval)
    (hk : ∀ m, m < k → fetchNonterminal (fetch m))
    (hd : (k + 1) * interval ≤ ctx.doneTime) :
    pollInstanceStatus ctx fetch name id interval =
      match fetch k with
      | Except.error e => ⟨some e, PollOutcome.fetchError, k + 1, (k + 1) * interval⟩
      | Except.ok info =>
        if lookupStr info "status" = "active" then
          ⟨none, PollOutcome.ready, k + 1, (k + 1) * interval⟩
        else if lookupStr info "status" = "error" then
          ⟨some (GoError.errorString ("instance " ++ id ++ " is in error state")),
           PollOutcome.failed, k + 1, (k + 1) * interval⟩
        else
          pollLoop ctx fetch id interval (ctx.doneTime - k) (k + 1) := by
  unfold pollInstanceStatus
  obtain ⟨D, hDg⟩ : ∃ D, ctx.doneTime = D := ⟨_, rfl⟩
  rw [hDg] at hd ⊢
  have hkD : k + 1 ≤ D := by
    calc k + 1 = (k + 1) * 1 := (Nat.mul_one (k + 1)).symm
    _ ≤ (k + 1) * interval := Nat.mul_le_mul_left (k + 1) hi
    _ ≤ D := hd
  have hkle : k * interval ≤ D := by
    have : k * interval ≤ (k + 1) * interval := Nat.mul_le_mul_right interval (by omega)
    omega
  have hneg : ¬ D < (k + 1) * interval := by omega
  have hfuel : D + 1 = ((D - k) + 1) + k := by omega
  have hskip := pollLoop_skip ctx fetch id interval k ((D - k) + 1) 0
    (fun m hm => by simpa using hk m hm) (by rw [hDg]; simpa using hkle)
  rw [hfuel, hskip, show (0 : Nat) + k = k from by omega, pollLoop_succ,
    if_neg (by rw [hDg]; exact hneg)]

/-- If every fetch up to the last tick within the context's lifetime is
non-terminal, the loop exits through the `<-ctx.Done()` branch: it returns
`ctx.Err()` at the done time, having fetched exactly `doneTime / interval`
times. -/
theorem poll_run_done (ctx : Ctx) (fetch : Nat → Except GoError Info)
    (name id : String) (interval : Nat)
    (hi : 1 ≤ interval)
    (hnt : ∀ m, m < ctx.doneTime / interval → fetchNonterminal (fetch m)) :
    pollInstanceStatus ctx fetch name id interval =
      doneExit ctx (ctx.doneTime / interval) := by
  unfold pollInstanceStatus
  obtain ⟨D, hDg⟩ : ∃ D, ctx.doneTime = D := ⟨_, rfl⟩
  rw [hDg] at hnt ⊢
  obtain ⟨j, hjg⟩ : ∃ j, D / interval = j := ⟨_, rfl⟩
  rw [hjg] at hnt ⊢
  have hjle : j * interval ≤ D := by
    rw [← hjg, Nat.mul_comm]
    exact Nat.mul_div_le D interval
  have hjD : j ≤ D := by
    have h1 : j = j * 1 := (Nat.mul_one j).symm
    have h2 : j * 1 ≤ j * interval := Nat.mul_le_mul_left j hi
    omega
  have hfuel : D + 1 = ((D - j) + 1) + j := by omega
  have hskip := pollLoop_skip ctx fetch id interval j ((D - j) + 1) 0
    (fun m hm => by simpa using hnt m hm) (by rw [hDg]; simpa using hjle)
  have htimeout : D < (j + 1) * interval := by
    have hlt : D % interval < interval := Nat.mod_lt D (by omega)
    calc D = interval * (D / interval) + D % interval := (Nat.div_add_mod D interval).symm
    _ < interval * j + interval := by rw [hjg]; omega
    _ = (j + 1) * interval := by ring
  rw [hfuel, hskip, show (0 : Nat) + j = j from by omega, pollLoop_succ,
    if_pos (by rw [hDg]; exact htimeout)]

theorem ctx_err_cases (ctx : Ctx) :
    ctx.err = GoError.deadlineExceeded ∨ ctx.err = GoError.canceled := by
  unfold Ctx.err
  cases ctx.cancel with
  | none => exact Or.inl rfl
  | some c =>
    by_cases h : c < ctx.deadline
    · exact Or.inr (by simp [h])
    · exact Or.inl (by simp [h])

theorem doneExit_variant (ctx : Ctx) (n : Nat) :
    errVariant (doneExit ctx n).err = outcomeVariant (doneExit ctx n).outcome := by
  unfold doneExit
  rcases ctx_err_cases ctx with h | h <;> simp [h, errVariant, outcomeVariant]

/-- For a client-backed fetch capability, the variant of the error value
returned by the loop is exactly the variant associated with the exit branch
taken. -/
theorem pollLoop_variant (ctx : Ctx) (fetch : Nat → Except GoError Info)
    (id : String) (interval : Nat) (hcl : clientErrorsOnly fetch) :
    ∀ fuel n,
      errVariant (pollLoop ctx fetch id interval fuel n).err =
        outcomeVariant (pollLoop ctx fetch id interval fuel n).outcome := by
  intro fuel
  induction fuel with
  | zero => intro n; rw [pollLoop_zero]; exact doneExit_variant ctx n
  | succ fuel ih =>
    intro n
    rw [pollLoop_succ]
    by_cases hdone : ctx.doneTime < (n + 1) * interval
    · rw [if_pos hdone]; exact doneExit_variant ctx n
    · rw [if_neg hdone]
      cases hfe : fetch n with
      | error e =>
        obtain ⟨s, hs⟩ := hcl n e hfe
        subst hs
        simp [errVariant, outcomeVariant]
      | ok info =>
        by_cases ha : lookupStr info "status" = "active"
        · simp [ha, errVariant, outcomeVariant]
        · by_cases he : lookupStr info "status" = "error"
          · simp [ha, he, errVariant, outcomeVariant]
          · simp only [if_neg ha, if_neg he]
            exact ih (n + 1)

theorem pollInstanceStatus_variant (ctx : Ctx) (fetch : Nat → Except GoError Info)
    (name id : String) (interval : Nat) (hcl : clientErrorsOnly fetch) :
    errVariant (pollInstanceStatus ctx fetch name id interval).err =
      outcomeVariant (pollInstanceStatus ctx fetch name id interval).outcome :=
  pollLoop_variant ctx fetch id interval hcl (ctx.doneTime + 1) 0

theorem errVariant_one (o : Option GoError) (h : errVariant o = 1) :
    o = some GoError.deadlineExceeded := by
  match o with
  | none => simp [errVariant] at h
  | some GoError.deadlineExceeded => rfl
  | some GoError.canceled => simp [errVariant] at h
  | some (GoError.errorString s) => simp [errVariant] at h

theorem errVariant_two (o : Option GoError) (h : errVariant o = 2) :
    o = some GoError.canceled := by
  match o with
  | none => simp [errVariant] at h
  | some GoError.deadlineExceeded => simp [errVariant] at h
  | some GoError.canceled => rfl
  | some (GoError.errorString s) => simp [errVariant] at h

theorem fetchEquiv_refl (r : Except GoError Info) : FetchEquiv r r := by
  cases r with
  | error e => exact Or.inl ⟨e, rfl, rfl⟩
  | ok info => exact Or.inr ⟨info, info, rfl, rfl, rfl⟩

/-- The poll loop observes each fetch result only through its error value and
its status string: pointwise `FetchEquiv` capabilities produce identical
sessions. -/
theorem pollLoop_congr (ctx : Ctx) (fetch fetch' : Nat → Except GoError Info)
    (id : String) (interval : Nat)
    (h : ∀ m, FetchEquiv (fetch m) (fetch' m)) :
    ∀ fuel n,
      pollLoop ctx fetch id interval fuel n = pollLoop ctx fetch' id interval fuel n := by
  intro fuel
  induction fuel with
  | zero => intro n; rfl
  | succ fuel ih =>
    intro n
    rw [pollLoop_succ, pollLoop_succ]
    by_cases hdone : ctx.doneTime < (n + 1) * interval
    · rw [if_pos hdone, if_pos hdone]
    · rw [if_neg hdone, if_neg hdone]
      rcases h n with ⟨e, h1, h2⟩ | ⟨i1, i2, h1, h2, hs⟩
      · rw [h1, h2]
      · rw [h1, h2]
        dsimp only
        rw [← hs]
        by_cases ha : lookupStr i1 "status" = "active"
        · simp [ha]
        · by_cases he : lookupStr i1 "status" = "error"
          · simp [ha, he]
          · simp only [if_neg ha, if_neg he]
            exact ih (n + 1)

/-- Claim C4: if the status fetch fails on a tick, the poll loop terminates
immediately at that tick with the fetch-error outcome, returning the fetch's
error, and never invokes the status-fetch capability again: after `k`
non-terminal ticks and a failing fetch on tick `k + 1`, the session performs
exactly `k + 1` fetch calls. -/
theorem fetch_error_aborts_poll (ctx : Ctx) (fetch : Nat → Except GoError Info)
    (name id : String) (interval k : Nat) (e : GoError)
    (hi : 1 ≤ interval)
    (hk : ∀ m, m < k → fetchNonterminal (fetch m))
    (hd : (k + 1) * interval ≤ ctx.doneTime)
    (he : fetch k = Except.error e) :
    pollInstanceStatus ctx fetch name id interval =
      ⟨some e, PollOutcome.fetchError, k + 1, (k + 1) * interval⟩ := by
  rw [poll_step_at ctx fetch name id interval k hi hk hd, he]

/-- Witness for C4: one pending tick, then a transport error on the second
tick; the session aborts with that error after exactly two fetch calls. -/
theorem fetch_error_aborts_poll_witness :
    pollInstanceStatus ⟨50, none⟩ fetchErrAt1 "tf-instance" "i-1" 15 =
      ⟨some (GoError.errorString "failed to make request: connection refused"),
       PollOutcome.fetchError, 2, 30⟩ :=
  fetch_error_aborts_poll ⟨50, none⟩ fetchErrAt1 "tf-instance" "i-1" 15 1
    (GoError.errorString "failed to make request: connection refused")
    (by decide)
    (by intro m hm
        have hm0 : m = 0 := by omega
        subst hm0
        exact ⟨[("status", GoValue.str "pending")], rfl, by decide, by decide⟩)
    (by decide)
    rfl

/-- Claim C5: for a status sequence of `k` non-terminal snapshots followed by
`"active"`, the poll session performs exactly `k + 1` fetch calls — the first
only after one full interval has elapsed (the session returns at time
`(k+1)*interval`, so for `k = 0` the single fetch happens at time `interval`,
not at time 0) — and returns the ready outcome (a `nil` error), with no
fetch calls after the `"active"` observation. -/
theorem nonterminal_then_active_ready (ctx : Ctx) (fetch : Nat → Except GoError Info)
    (name id : String) (interval k : Nat) (info : Info)
    (hi : 1 ≤ interval)
    (hk : ∀ m, m < k → fetchNonterminal (fetch m))
    (hd : (k + 1) * interval ≤ ctx.doneTime)
    (ha : fetch k = Except.ok info)
    (hs : lookupStr info "status" = "active") :
    pollInstanceStatus ctx fetch name id interval =
      ⟨none, PollOutcome.ready, k + 1, (k + 1) * interval⟩ := by
  rw [poll_step_at ctx fetch name id interval k hi hk hd, ha]
  dsimp only
  rw [if_pos hs]

/-- Witness for C5: the spec's concrete scenario — interval 1, deadline 5,
statuses `["pending", "pending", "active"]` — yields Ready after exactly 3
fetch calls, at time 3. -/
theorem nonterminal_then_active_ready_witness :
    pollInstanceStatus ⟨5, none⟩ pendPendActive "tf-instance" "i-1" 1 =
      ⟨none, PollOutcome.ready, 3, 3⟩ :=
  nonterminal_then_active_ready ⟨5, none⟩ pendPendActive "tf-instance" "i-1" 1 2
    [("status", GoValue.str "active")]
    (by decide)
    (by intro m hm
        exact ⟨[("status", GoValue.str "pending")],
          by simp [pendPendActive, hm], by decide, by decide⟩)
    (by decide)
    rfl
    rfl

/-- Claim C6: for a status sequence whose first terminal element is
`"error"` (after `k` non-terminal snapshots), the poll session terminates at
that tick with the failed outcome, and the returned error value carries the
resource id: it is exactly the message error
`"instance " ++ id ++ " is in error state"`. -/
theorem error_status_failed_with_id (ctx : Ctx) (fetch : Nat → Except GoError Info)
    (name id : String) (interval k : Nat) (info : Info)
    (hi : 1 ≤ interval)
    (hk : ∀ m, m < k → fetchNonterminal (fetch m))
    (hd : (k + 1) * interval ≤ ctx.doneTime)
    (ha : fetch k = Except.ok info)
    (hs : lookupStr info "status" = "error") :
    pollInstanceStatus ctx fetch name id interval =
      ⟨some (GoError.errorString ("instance " ++ id ++ " is in error state")),
       PollOutcome.failed, k + 1, (k + 1) * interval⟩ := by
  have hna : lookupStr info "status" ≠ "active" := by rw [hs]; decide
  rw [poll_step_at ctx fetch name id interval k hi hk hd, ha]
  dsimp only
  rw [if_neg hna, if_pos hs]

/-- Witness for C6: the spec's concrete scenario — statuses
`["pending", "error"]` — yields Failed after exactly 2 fetch calls, with the
resource id `"i-1"` preserved in the returned error. -/
theorem error_status_failed_with_id_witness :
    pollInstanceStatus ⟨5, none⟩ pendErrorFetch "tf-instance" "i-1" 1 =
      ⟨some (GoError.errorString "instance i-1 is in error state"),
       PollOutcome.failed, 2, 2⟩ :=
  error_status_failed_with_id ⟨5, none⟩ pendErrorFetch "tf-instance" "i-1" 1 1
    [("status", GoValue.str "error")]
    (by decide)
    (by intro m hm
        have hm0 : m = 0 := by omega
        subst hm0
        exact ⟨[("status", GoValue.str "pending")], rfl, by decide, by decide⟩)
    (by decide)
    rfl
    rfl

/-- Claim C7: if every snapshot inside the deadline is non-terminal, the poll
session ends with the timed-out outcome, returning `context.DeadlineExceeded`
at the deadline, after exactly `deadline / interval` fetch calls — the number
of ticks that fit inside the deadline — so no status fetch happens after the
deadline has passed. -/
theorem deadline_elapsed_timed_out (deadline interval : Nat)
    (fetch : Nat → Except GoError Info) (name id : String)
    (hi : 1 ≤ interval)
    (hnt : ∀ m, m < deadline / interval → fetchNonterminal (fetch m)) :
    pollInstanceStatus ⟨deadline, none⟩ fetch name id interval =
      ⟨some GoError.deadlineExceeded, PollOutcome.timedOut,
       deadline / interval, deadline⟩ := by
  have hdt : Ctx.doneTime ⟨deadline, none⟩ = deadline := rfl
  have h := poll_run_done ⟨deadline, none⟩ fetch name id interval hi
    (by rw [hdt]; exact hnt)
  rw [h]
  unfold doneExit
  rw [hdt]
  rfl

/-- Witness for C7: the spec's concrete scenario — interval 1, deadline 2,
all snapshots `"pending"` — yields TimedOut after exactly 2 fetch calls. -/
theorem deadline_elapsed_timed_out_witness :
    pollInstanceStatus ⟨2, none⟩ pendingFetch "tf-instance" "i-1" 1 =
      ⟨some GoError.deadlineExceeded, PollOutcome.timedOut, 2, 2⟩ :=
  deadline_elapsed_timed_out 2 1 pendingFetch "tf-instance" "i-1"
    (by decide)
    (by intro m hm
        exact ⟨[("status", GoValue.str "pending")], rfl, by decide, by decide⟩)

/-- Claim C8: if cancellation is signaled at time `c`, before the deadline and
while all snapshots observed so far are non-terminal, the inter-tick wait is
interrupted: the loop returns the cancelled outcome (`context.Canceled`) at
time `c` itself — in particular within at most one poll interval of the
signal — rather than waiting out the remaining deadline. -/
theorem cancellation_responsive (deadline interval c : Nat)
    (fetch : Nat → Except GoError Info) (name id : String)
    (hi : 1 ≤ interval)
    (hc : c < deadline)
    (hnt : ∀ m, m < c / interval → fetchNonterminal (fetch m)) :
    pollInstanceStatus ⟨deadline, some c⟩ fetch name id interval =
      ⟨some GoError.canceled, PollOutcome.cancelled, c / interval, c⟩ ∧
    (pollInstanceStatus ⟨deadline, some c⟩ fetch name id interval).time ≤ c + interval := by
  have hdt : Ctx.doneTime ⟨deadline, some c⟩ = c := by
    show min c deadline = c
    exact Nat.min_eq_left (Nat.le_of_lt hc)
  have herr : Ctx.err ⟨deadline, some c⟩ = GoError.canceled := by
    show (if c < deadline then GoError.canceled else GoError.deadlineExceeded) = _
    rw [if_pos hc]
  have h := poll_run_done ⟨deadline, some c⟩ fetch name id interval hi
    (by rw [hdt]; exact hnt)
  rw [hdt] at h
  have hrec : pollInstanceStatus ⟨deadline, some c⟩ fetch name id interval =
      ⟨some GoError.canceled, PollOutcome.cancelled, c / interval, c⟩ := by
    rw [h]
    unfold doneExit
    rw [hdt, herr]
    rfl
  exact ⟨hrec, by rw [hrec]; dsimp only; omega⟩

/-- Witness for C8: deadline 100, interval 15, cancellation at time 20 over
pending snapshots: the session returns Cancelled at time 20 (after the single
fetch at time 15), within one interval of the signal. -/
theorem cancellation_responsive_witness :
    pollInstanceStatus ⟨100, some 20⟩ pendingFetch "tf-instance" "i-1" 15 =
      ⟨some GoError.canceled, PollOutcome.cancelled, 1, 20⟩ ∧
    (pollInstanceStatus ⟨100, some 20⟩ pendingFetch "tf-instance" "i-1" 15).time ≤ 35 :=
  cancellation_responsive 100 15 20 pendingFetch "tf-instance" "i-1"
    (by decide)
    (by decide)
    (by intro m hm
        exact ⟨[("status", GoValue.str "pending")], rfl, by decide, by decide⟩)

/-- Whatever branch `Create` takes after the poll session, the session it
reports is the session it ran. -/
theorem instanceCreateAwait_pollResult (plan : InstanceResourceModel)
    (fetch : Nat → Except GoError Info) (cancel : Option Nat) (instanceID : String) :
    (instanceCreateAwait plan fetch cancel instanceID).pollResult =
      instanceCreatePoll plan fetch cancel instanceID := by
  unfold instanceCreateAwait
  cases h : (instanceCreatePoll plan fetch cancel instanceID).err <;> simp

/-- The variant invariant, specialised to the poll session `Create` runs. -/
theorem instanceCreatePoll_variant (plan : InstanceResourceModel)
    (fetch : Nat → Except GoError Info) (cancel : Option Nat) (instanceID : String)
    (hcl : clientErrorsOnly fetch) :
    errVariant (instanceCreatePoll plan fetch cancel instanceID).err =
      outcomeVariant (instanceCreatePoll plan fetch cancel instanceID).outcome := by
  unfold instanceCreatePoll
  exact pollInstanceStatus_variant _ fetch _ _ _ hcl

/-- Claim C9: a fetched snapshot whose `"status"` field is absent or not a
string is read as the empty string — a non-terminal status — so the session is
identical to one in which that snapshot carried `status = ""`, and in
particular the loop continues rather than failing or terminating on it. -/
theorem missing_status_nonterminal (ctx : Ctx) (fetch : Nat → Except GoError Info)
    (name id : String) (interval n : Nat) (info : Info)
    (hfi : fetch n = Except.ok info)
    (hs : ∀ s, info.lookup "status" ≠ some (GoValue.str s)) :
    lookupStr info "status" = "" ∧
    pollInstanceStatus ctx fetch name id interval =
      pollInstanceStatus ctx
        (fun m => if m = n then Except.ok [("status", GoValue.str "")] else fetch m)
        name id interval := by
  have h1 : lookupStr info "status" = "" := by
    unfold lookupStr
    cases hv : info.lookup "status" with
    | none => rfl
    | some v =>
      cases v with
      | str s => exact absurd hv (hs s)
      | boolean b => rfl
      | num m => rfl
      | null => rfl
  refine ⟨h1, ?_⟩
  unfold pollInstanceStatus
  apply pollLoop_congr
  intro m
  by_cases hm : m = n
  · subst hm
    refine Or.inr ⟨info, [("status", GoValue.str "")], hfi, by simp, ?_⟩
    rw [h1]
    rfl
  · simp only [if_neg hm]
    exact fetchEquiv_refl (fetch m)

/-- Witness for C9: a first snapshot whose `"status"` field holds a number is
read as the empty string, and the session coincides with the session whose
first snapshot has `status = ""`. -/
theorem missing_status_nonterminal_witness :
    lookupStr [("status", GoValue.num 5)] "status" = "" ∧
    pollInstanceStatus ⟨50, none⟩ numStatusFetch "tf-instance" "i-1" 15 =
      pollInstanceStatus ⟨50, none⟩
        (fun m => if m = 0 then Except.ok [("status", GoValue.str "")] else numStatusFetch m)
        "tf-instance" "i-1" 15 :=
  missing_status_nonterminal ⟨50, none⟩ numStatusFetch "tf-instance" "i-1" 15 0
    [("status", GoValue.num 5)]
    rfl
    (by intro s h
        simp [List.lookup] at h)

/-- Claim C10: the update request body contains the key `"name"` exactly when
the planned name differs from the name in state, never contains any other
key, and is empty when the names are equal (the planned value sent is the
planned name's string). -/
theorem update_body_name_only (plan state : InstanceResourceModel) :
    ((instanceUpdateRequestBody plan state).lookup "name" ≠ none ↔
      plan.name ≠ state.name) ∧
    (plan.name = state.name → instanceUpdateRequestBody plan state = []) ∧
    (plan.name ≠ state.name →
      instanceUpdateRequestBody plan state =
        [("name", GoValue.str plan.name.valueString)]) ∧
    (∀ kv, kv ∈ instanceUpdateRequestBody plan state → kv.1 = "name") := by
  by_cases h : plan.name = state.name
  · refine ⟨?_, fun _ => by simp [instanceUpdateRequestBody, h], fun hne => absurd h hne, ?_⟩
    · simp [instanceUpdateRequestBody, h]
    · intro kv hkv
      simp [instanceUpdateRequestBody, h] at hkv
  · refine ⟨?_, fun he => absurd he h, fun _ => by simp [instanceUpdateRequestBody, h], ?_⟩
    · simp [instanceUpdateRequestBody, h, List.lookup]
    · intro kv hkv
      simp [instanceUpdateRequestBody, h] at hkv
      rw [hkv]

/-- Witness for C10: renaming puts exactly the `"name"` entry in the body;
an unchanged name yields an empty body. -/
theorem update_body_name_only_witness :
    instanceUpdateRequestBody planBase planBase = [] ∧
    instanceUpdateRequestBody planRenamed planBase =
      [("name", GoValue.str "tf-renamed")] ∧
    (instanceUpdateRequestBody planRenamed planBase).lookup "name" ≠ none :=
  ⟨(update_body_name_only planBase planBase).2.1 rfl,
   (update_body_name_only planRenamed planBase).2.2.1 (by decide),
   ((update_body_name_only planRenamed planBase).1).2 (by decide)⟩

/-- Counterexample for C3: the poll interval passed by `Create` does not
depend on any caller-supplied configuration — no two plans (or ids) yield
different intervals — so the interval is not caller-overridable. -/
theorem poll_interval_fixed_cex :
    ¬ ∃ (p q : InstanceResourceModel) (i j : String),
        (instanceCreatePollParams p i).interval ≠ (instanceCreatePollParams q j).interval := by
  rintro ⟨p, q, i, j, h⟩
  exact h rfl

/-- Claim C3 (amended): the readiness loop's parameters take their design
defaults — poll interval 15 seconds and deadline 3600 seconds — and the
deadline is overridable through the `timeouts` configuration block, but the
interval is a fixed constant that caller configuration cannot change. -/
theorem create_poll_defaults (plan : InstanceResourceModel) (instanceID : String) :
    (instanceCreatePollParams plan instanceID).interval = 15 ∧
    (plan.timeouts.create = none →
      (instanceCreatePollParams plan instanceID).deadline = 3600) ∧
    (∀ d, plan.timeouts.create = some d →
      (instanceCreatePollParams plan instanceID).deadline = d) := by
  refine ⟨rfl, ?_, ?_⟩
  · intro h
    simp [instanceCreatePollParams, TimeoutsValue.createOrDefault, h, defaultCreateTimeout]
  · intro d h
    simp [instanceCreatePollParams, TimeoutsValue.createOrDefault, h]

/-- Witness for C3 (amended): with no timeouts configuration the parameters
are 15 and 3600; a configured 20-second create timeout changes the deadline
to 20 while the interval stays 15. -/
theorem create_poll_defaults_witness :
    (instanceCreatePollParams planBase "i-1").interval = 15 ∧
    (instanceCreatePollParams planBase "i-1").deadline = 3600 ∧
    (instanceCreatePollParams planShortTimeout "i-1").deadline = 20 ∧
    (instanceCreatePollParams planShortTimeout "i-1").interval = 15 :=
  ⟨(create_poll_defaults planBase "i-1").1,
   (create_poll_defaults planBase "i-1").2.1 rfl,
   (create_poll_defaults planShortTimeout "i-1").2.2 20 rfl,
   (create_poll_defaults planShortTimeout "i-1").1⟩

/-- Counterexample for C1: a poll session that ends in TimedOut (create
timeout configured to 20 seconds, all snapshots pending) after which the
Create handler makes no client call at all — in particular no deletion of the
half-provisioned instance — and directly surfaces the timeout as the
`"Instance not ready"` diagnostic. -/
theorem create_timeout_no_delete_cex :
    (instanceCreateAwait planShortTimeout pendingFetch none "i-42").pollResult.outcome =
      PollOutcome.timedOut ∧
    (instanceCreateAwait planShortTimeout pendingFetch none "i-42").calls = [] ∧
    (instanceCreateAwait planShortTimeout pendingFetch none "i-42").diagnostic =
      some ("Instance not ready",
        "timed out waiting for i-42 to become active: context deadline exceeded") := by
  decide

/-- Claim C1 (amended): when the poll session for instance creation ends in
TimedOut, the Create handler surfaces the timeout as a user-visible error
whose message carries the resource id, making no further client calls — in
particular it does not attempt deletion of the half-provisioned instance. -/
theorem create_timeout_surfaces_error_without_delete
    (plan : InstanceResourceModel) (fetch : Nat → Except GoError Info)
    (cancel : Option Nat) (instanceID : String)
    (hcl : clientErrorsOnly fetch)
    (ht : (instanceCreateAwait plan fetch cancel instanceID).pollResult.outcome =
      PollOutcome.timedOut) :
    (instanceCreateAwait plan fetch cancel instanceID).calls = [] ∧
    (instanceCreateAwait plan fetch cancel instanceID).diagnostic =
      some ("Instance not ready",
        "timed out waiting for " ++ instanceID ++ " to become active: " ++
          "context deadline exceeded") := by
  rw [instanceCreateAwait_pollResult] at ht
  have herr : (instanceCreatePoll plan fetch cancel instanceID).err =
      some GoError.deadlineExceeded := by
    apply errVariant_one
    rw [instanceCreatePoll_variant plan fetch cancel instanceID hcl, ht]
    rfl
  unfold instanceCreateAwait
  rw [herr]
  exact ⟨rfl, rfl⟩

/-- Witness for C1 (amended): the concrete timed-out session (create timeout
20 seconds, pending snapshots) yields no client calls and the timeout
diagnostic carrying the id. -/
theorem create_timeout_surfaces_error_without_delete_witness :
    (instanceCreateAwait planShortTimeout pendingFetch none "i-7").calls = [] ∧
    (instanceCreateAwait planShortTimeout pendingFetch none "i-7").diagnostic =
      some ("Instance not ready",
        "timed out waiting for " ++ "i-7" ++ " to become active: " ++
          "context deadline exceeded") :=
  create_timeout_surfaces_error_without_delete planShortTimeout pendingFetch none "i-7"
    (by intro m e h
        simp [pendingFetch] at h)
    (by decide)

/-- Counterexample for C2: a run ending in FetchError and a run ending in
ProvisioningFailed whose returned error values are of the same variant — both
are plain message errors — so the four terminal outcomes are not all
distinguishable by variant of the returned value. -/
theorem outcome_variant_collision_cex :
    (pollInstanceStatus ⟨60, none⟩ errFetch "tf-instance" "i-9" 15).outcome =
      PollOutcome.fetchError ∧
    (pollInstanceStatus ⟨60, none⟩ errorStatusFetch "tf-instance" "i-9" 15).outcome =
      PollOutcome.failed ∧
    (pollInstanceStatus ⟨60, none⟩ errFetch "tf-instance" "i-9" 15).err =
      some (GoError.errorString "failed to make request: connection refused") ∧
    (pollInstanceStatus ⟨60, none⟩ errorStatusFetch "tf-instance" "i-9" 15).err =
      some (GoError.errorString "instance i-9 is in error state") ∧
    GoError.sameVariant (GoError.errorString "failed to make request: connection refused")
      (GoError.errorString "instance i-9 is in error state") = true := by
  decide

/-- Claim C2 (amended): among the poll session's outcomes, Ready, TimedOut and
Cancelled each return a dedicated error variant (`nil` and the two context
sentinels), so any two runs ending in different outcomes whose returned
values share a variant must be a FetchError run and a ProvisioningFailed run
— the only two outcomes surfaced as message-only errors. -/
theorem outcome_variants_distinguishable
    (ctx1 ctx2 : Ctx) (f1 f2 : Nat → Except GoError Info)
    (n1 id1 n2 id2 : String) (i1 i2 : Nat)
    (hcl1 : clientErrorsOnly f1) (hcl2 : clientErrorsOnly f2)
    (hne : (pollInstanceStatus ctx1 f1 n1 id1 i1).outcome ≠
      (pollInstanceStatus ctx2 f2 n2 id2 i2).outcome)
    (heq : errVariant (pollInstanceStatus ctx1 f1 n1 id1 i1).err =
      errVariant (pollInstanceStatus ctx2 f2 n2 id2 i2).err) :
    ((pollInstanceStatus ctx1 f1 n1 id1 i1).outcome = PollOutcome.failed ∧
     (pollInstanceStatus ctx2 f2 n2 id2 i2).outcome = PollOutcome.fetchError) ∨
    ((pollInstanceStatus ctx1 f1 n1 id1 i1).outcome = PollOutcome.fetchError ∧
     (pollInstanceStatus ctx2 f2 n2 id2 i2).outcome = PollOutcome.failed) := by
  have h1 := pollInstanceStatus_variant ctx1 f1 n1 id1 i1 hcl1
  have h2 := pollInstanceStatus_variant ctx2 f2 n2 id2 i2 hcl2
  rw [h1, h2] at heq
  revert hne heq
  generalize (pollInstanceStatus ctx1 f1 n1 id1 i1).outcome = o1
  generalize (pollInstanceStatus ctx2 f2 n2 id2 i2).outcome = o2
  cases o1 <;> cases o2 <;> intro hne heq <;> simp_all [outcomeVariant]

/-- Witness for C2 (amended): applied to a ProvisioningFailed run and a
FetchError run, whose message-only error values share a variant. -/
theorem outcome_variants_distinguishable_witness :
    ((pollInstanceStatus ⟨60, none⟩ errorStatusFetch "tf-instance" "i-8" 15).outcome =
        PollOutcome.failed ∧
     (pollInstanceStatus ⟨60, none⟩ errFetch "tf-instance" "i-8" 15).outcome =
        PollOutcome.fetchError) ∨
    ((pollInstanceStatus ⟨60, none⟩ errorStatusFetch "tf-instance" "i-8" 15).outcome =
        PollOutcome.fetchError ∧
     (pollInstanceStatus ⟨60, none⟩ errFetch "tf-instance" "i-8" 15).outcome =
        PollOutcome.failed) :=
  outcome_variants_distinguishable ⟨60, none⟩ ⟨60, none⟩ errorStatusFetch errFetch
    "tf-instance" "i-8" "tf-instance" "i-8" 15 15
    (by intro m e h
        simp [errorStatusFetch] at h)
    (by intro m e h
        simp only [errFetch] at h
        exact ⟨"failed to make request: connection refused",
          (Except.error.inj h).symm⟩)
    (by decide)
    (by decide)

end Shadeform
